import Mathlib

/-!
Shallow embedding of the order-fulfillment core of the e-commerce backend
(apps/coupons, apps/cart, apps/products Stock, apps/orders, apps/payments),
together with theorems settling the frozen claims about it.

Monetary values (Django `DecimalField`) are modelled as rationals (ℚ); the
source performs no rounding in the code paths modelled here.  Timestamps are
modelled as integers.  Database tables are lists of rows; a Django
`filter(...).first()` becomes a first-match lookup, and saving a fetched row
becomes replacement of that first match.  A request handler wrapped in
`transaction.atomic` is modelled as a function into `Except`: an error result
means the transaction rolled back and the database is unchanged.
-/

namespace ECommerce

/-! ## Coupons — apps/coupons/models.py -/

inductive DiscountType
  | percentage
  | fixed
deriving DecidableEq, Repr

/-- Coupon row (apps/coupons/models.py, class Coupon).  The many-to-many
product/category restriction sets are omitted: no modelled operation reads
them.  `valid_from` is non-nullable in the source (default `timezone.now`);
a Python `datetime` is always truthy, so the guard `if self.valid_from`
always passes and is not modelled separately. -/
structure Coupon where
  code : String
  discount_type : DiscountType
  discount_value : ℚ
  max_discount : Option ℚ
  min_order_value : ℚ
  usage_limit : Option Nat
  usage_limit_per_user : Nat
  times_used : Nat
  is_active : Bool
  valid_from : Int
  valid_until : Option Int
  first_purchase_only : Bool
deriving DecidableEq, Repr

/-- Embeds `Coupon.is_valid` (models.py lines 104-124).  The source checks
`if self.usage_limit and self.times_used >= self.usage_limit`: a `usage_limit`
of `None` **or `0`** is falsy in Python, so the usage check is skipped for
both.  `now` replaces the source's `timezone.now()`. -/
def Coupon.is_valid (c : Coupon) (now : Int) : Bool :=
  if ¬ c.is_active then false
  else if now < c.valid_from then false
  else if (match c.valid_until with
           | some vu => decide (now > vu)
           | none => false : Bool) then false
  else if (match c.usage_limit with
           | some l => decide (l ≠ 0) && decide (c.times_used ≥ l)
           | none => false : Bool) then false
  else true

/-- Embeds `Coupon.calculate_discount` (models.py lines 151-162).  The source caps a
percentage discount with `if self.max_discount:` — a `max_discount` of `None`
or `0` is falsy, so no cap is applied in either case. -/
def Coupon.calculate_discount (c : Coupon) (order_value : ℚ) : ℚ :=
  match c.discount_type with
  | .percentage =>
    let discount := order_value * (c.discount_value / 100)
    match c.max_discount with
    | some m => if m = 0 then discount else min discount m
    | none => discount
  | .fixed => min c.discount_value order_value

/-- Modelled from the spec's words (§4.2), for comparison with the source's
`Coupon.is_valid`: "active AND now within [validFrom, validUntil] (either
bound optional) AND (usageLimit is null OR timesUsed < usageLimit)". -/
def specCouponValid (c : Coupon) (now : Int) : Bool :=
  c.is_active
    && decide (c.valid_from ≤ now)
    && (match c.valid_until with
        | some vu => decide (now ≤ vu)
        | none => true)
    && (match c.usage_limit with
        | some l => decide (c.times_used < l)
        | none => true)

/-! ## Cart — apps/cart/models.py -/

/-- Cart line (class CartItem): quantity plus the unit-price snapshot taken
at add time.  The (product, variation) pair identifies the line. -/
structure CartItem where
  productId : Nat
  variationId : Option Nat
  quantity : Nat
  unit_price : ℚ
deriving DecidableEq, Repr

/-- Embeds `CartItem.total_price` (models.py lines 143-149). -/
def CartItem.total_price (i : CartItem) : ℚ :=
  i.unit_price * i.quantity

/-- Cart (class Cart).  The applied coupon is embedded, matching the ORM
navigation `self.coupon` used by the computed properties. -/
structure Cart where
  items : List CartItem
  coupon : Option Coupon
deriving DecidableEq, Repr

/-- Embeds `Cart.subtotal` (models.py lines 51-57). -/
def Cart.subtotal (c : Cart) : ℚ :=
  (c.items.map CartItem.total_price).sum

/-- Embeds `Cart.discount` (models.py lines 59-77).  The source re-implements the
discount formula inline (it does not call `calculate_discount`); the falsy
check `if self.coupon.max_discount:` skips the cap for `None` and `0` alike.
`now` stands for the `timezone.now()` consulted by `coupon.is_valid`. -/
def Cart.discount (c : Cart) (now : Int) : ℚ :=
  match c.coupon with
  | none => 0
  | some cp =>
    if ¬ cp.is_valid now then 0
    else match cp.discount_type with
      | .percentage =>
        let discount := c.subtotal * (cp.discount_value / 100)
        match cp.max_discount with
        | some m => if m = 0 then discount else min discount m
        | none => discount
      | .fixed => min cp.discount_value c.subtotal

/-- Embeds `Cart.total` (models.py lines 79-85): `max(0, subtotal - discount)`. -/
def Cart.total (c : Cart) (now : Int) : ℚ :=
  max 0 (c.subtotal - c.discount now)

/-! ## Stock — apps/products/models.py -/

/-- Stock row (class Stock), keyed by (product, variation).  The counters are
modelled as integers: the source's `PositiveIntegerField`s are mutated by
plain `+=`/`-=` Python arithmetic in the modelled views, which is what the
claims are about; the database-level non-negativity check is not modelled. -/
structure Stock where
  productId : Nat
  variationId : Option Nat
  quantity : Int
  reserved_quantity : Int
deriving DecidableEq, Repr

/-- Embeds `Stock.available_quantity` (models.py lines 424-430):
`max(0, quantity - reserved_quantity)`. -/
def Stock.available_quantity (s : Stock) : Int :=
  max 0 (s.quantity - s.reserved_quantity)

/-! ## Orders — apps/orders/models.py -/

inductive OrderStatus
  | pending
  | awaiting_payment
  | paid
  | processing
  | shipped
  | delivered
  | cancelled
  | refunded
deriving DecidableEq, Repr

/-- Order row (class Order).  The JSON address snapshots, note fields and
order number are omitted: no modelled claim reads them.  `shipping_cost`,
`discount` default to 0 in the source; all pricing fields are frozen copies
made at checkout. -/
structure Order where
  id : Nat
  userId : Nat
  status : OrderStatus
  subtotal : ℚ
  shipping_cost : ℚ
  discount : ℚ
  total : ℚ
  coupon_code : String
  tracking_code : Option Nat
deriving DecidableEq, Repr

/-- Embeds `Order.can_cancel` (models.py lines 136-139). -/
def Order.can_cancel (o : Order) : Bool :=
  o.status = .pending ∨ o.status = .awaiting_payment ∨ o.status = .paid

/-- Order line snapshot (class OrderItem).  The name/SKU string snapshots are
omitted.  `total_price` is set by the model's `save` override to
`unit_price * quantity`. -/
structure OrderItem where
  orderId : Nat
  productId : Nat
  variationId : Option Nat
  quantity : Nat
  unit_price : ℚ
  total_price : ℚ
deriving DecidableEq, Repr

/-- Append-only history entry (class OrderStatusHistory). -/
structure StatusHistoryEntry where
  orderId : Nat
  status : OrderStatus
  notes : String
deriving DecidableEq, Repr

/-! ## Payments — apps/payments/models.py and gateways -/

/-- Internal payment status strings used by the views and the gateway status
maps (`_map_status` in gateways/mercadopago.py and gateways/stripe.py). -/
inductive PayStatus
  | pending
  | processing
  | approved
  | rejected
  | cancelled
  | refunded
deriving DecidableEq, Repr

/-- Payment row (class Payment).  Gateway artifacts (PIX QR code, boleto
fields, raw gateway response) are omitted; `gateway_payment_id` is the
gateway-assigned external id the webhook handlers look payments up by. -/
structure Payment where
  id : Nat
  orderId : Nat
  status : PayStatus
  amount : ℚ
  gateway_payment_id : Option Nat
deriving DecidableEq, Repr

/-- Append-only gateway-interaction ledger entry (class PaymentTransaction). -/
structure PaymentTransaction where
  paymentId : Nat
  transaction_type : String
  status : PayStatus
  amount : ℚ
deriving DecidableEq, Repr

/-- Result of a gateway adapter's `create_payment` (gateways/base.py,
PaymentResult), reduced to the fields the view reads.  On `success = true`
the status is one the adapter's `_map_status` produced. -/
structure GatewayResult where
  success : Bool
  payment_id : Option Nat
  result_status : PayStatus
deriving DecidableEq, Repr

/-- Product row reduced to the best-seller counter checkout increments
(apps/products/models.py, `Product.order_count`). -/
structure Product where
  id : Nat
  order_count : Nat
deriving DecidableEq, Repr

/-- Address row reduced to ownership (apps/accounts/models.py, class
Address): checkout only checks that the id belongs to the user before
snapshotting the fields we omit. -/
structure Address where
  id : Nat
  userId : Nat
deriving DecidableEq, Repr

/-- Coupon-redemption join row (class CouponUsage). -/
structure CouponUsage where
  couponCode : String
  userId : Nat
  orderId : Nat
deriving DecidableEq, Repr

/-! ## The database -/

/-- The relational state touched by the modelled operations.  Each list is a
table, in row order; `nextOrderId`/`nextPaymentId` model primary-key
assignment. -/
structure DB where
  carts : List (Nat × Cart)
  addresses : List Address
  stocks : List Stock
  orders : List Order
  orderItems : List OrderItem
  statusHistory : List StatusHistoryEntry
  coupons : List Coupon
  couponUsages : List CouponUsage
  payments : List Payment
  paymentTransactions : List PaymentTransaction
  products : List Product
  nextOrderId : Nat
  nextPaymentId : Nat
deriving DecidableEq, Repr

/-- Business-logic errors (apps/core/exceptions.py), as surfaced by the
modelled views. -/
inductive Err
  | cartEmpty
  | addressNotFound
  | orderNotFound
  | orderNotCancellable
  | orderNotAwaitingPayment
  | paymentNotFound
  | paymentFailed
  | onlyApprovedRefundable
  | refundFailed
  | insufficientStock
deriving DecidableEq, Repr

/-! ### First-match lookups and updates

Django's `Model.objects.filter(...).first()` returns the first matching row;
saving that row updates exactly it.  `findFirst...` and `updateFirst...`
model the pair: the update replaces the first row the lookup would return
and leaves everything else in place. -/

def findFirstStock : List Stock → Nat → Option Nat → Option Stock
  | [], _, _ => none
  | s :: ss, pid, vid =>
    if s.productId = pid ∧ s.variationId = vid then some s
    else findFirstStock ss pid vid

def updateFirstStock : List Stock → Nat → Option Nat → (Stock → Stock) → List Stock
  | [], _, _, _ => []
  | s :: ss, pid, vid, f =>
    if s.productId = pid ∧ s.variationId = vid then f s :: ss
    else s :: updateFirstStock ss pid vid f

def findFirstOrder : List Order → Nat → Option Order
  | [], _ => none
  | o :: os, oid => if o.id = oid then some o else findFirstOrder os oid

def updateFirstOrder : List Order → Nat → (Order → Order) → List Order
  | [], _, _ => []
  | o :: os, oid, f =>
    if o.id = oid then f o :: os else o :: updateFirstOrder os oid f

def findFirstPayment : List Payment → Nat → Option Payment
  | [], _ => none
  | p :: ps, xid =>
    if p.gateway_payment_id = some xid then some p
    else findFirstPayment ps xid

def updateFirstPayment : List Payment → Nat → (Payment → Payment) → List Payment
  | [], _, _ => []
  | p :: ps, xid, f =>
    if p.gateway_payment_id = some xid then f p :: ps
    else p :: updateFirstPayment ps xid f

def findPaymentById : List Payment → Nat → Option Payment
  | [], _ => none
  | p :: ps, pid => if p.id = pid then some p else findPaymentById ps pid

def updatePaymentById : List Payment → Nat → (Payment → Payment) → List Payment
  | [], _, _ => []
  | p :: ps, pid, f =>
    if p.id = pid then f p :: ps else p :: updatePaymentById ps pid f

def updateFirstProduct : List Product → Nat → (Product → Product) → List Product
  | [], _, _ => []
  | p :: ps, pid, f =>
    if p.id = pid then f p :: ps else p :: updateFirstProduct ps pid f

def updateFirstCoupon : List Coupon → String → (Coupon → Coupon) → List Coupon
  | [], _, _ => []
  | c :: cs, code, f =>
    if c.code = code then f c :: cs else c :: updateFirstCoupon cs code f

def findCart : List (Nat × Cart) → Nat → Option Cart
  | [], _ => none
  | (u, c) :: cs, uid => if u = uid then some c else findCart cs uid

def updateCart : List (Nat × Cart) → Nat → (Cart → Cart) → List (Nat × Cart)
  | [], _, _ => []
  | (u, c) :: cs, uid, f =>
    if u = uid then (u, f c) :: cs else (u, c) :: updateCart cs uid f

def hasAddress (addrs : List Address) (aid uid : Nat) : Bool :=
  addrs.any (fun a => a.id = aid ∧ a.userId = uid)

/-! ## Checkout — apps/orders/views.py, CheckoutView.post -/

/-- The stock-reservation loop of checkout (views.py lines 124-133): for each
cart line, the first matching stock row (if any) gets `reserved_quantity`
incremented by the line quantity; a missing row is a silent no-op. -/
def reserveAll (stocks : List Stock) (items : List CartItem) : List Stock :=
  items.foldl (fun ss it =>
    updateFirstStock ss it.productId it.variationId
      (fun s => { s with reserved_quantity := s.reserved_quantity + it.quantity }))
    stocks

/-- The Order row checkout creates (views.py lines 74-107): status
`pending`, pricing copied from the cart's computed values, shipping cost
hard-coded to 0 (carrier integration pending in the source). -/
def checkoutOrder (db : DB) (userId : Nat) (cart : Cart) (now : Int) : Order :=
  { id := db.nextOrderId
    userId := userId
    status := .pending
    subtotal := cart.subtotal
    shipping_cost := 0
    discount := cart.discount now
    total := cart.total now
    coupon_code := (match cart.coupon with | some cp => cp.code | none => "")
    tracking_code := none }

/-- The state written by a successful checkout (views.py lines 74-166):
the new order and its frozen line snapshots, reservations incremented,
product order counters bumped, coupon usage recorded, history appended,
cart cleared. -/
def checkoutResult (db : DB) (userId : Nat) (cart : Cart) (now : Int) : DB × Order :=
  let order := checkoutOrder db userId cart now
  let newItems : List OrderItem := cart.items.map (fun it =>
    { orderId := order.id
      productId := it.productId
      variationId := it.variationId
      quantity := it.quantity
      unit_price := it.unit_price
      total_price := it.unit_price * it.quantity })
  let couponTables : List Coupon × List CouponUsage :=
    match cart.coupon with
    | some cp =>
      (updateFirstCoupon db.coupons cp.code
         (fun c => { c with times_used := c.times_used + 1 }),
       db.couponUsages ++ [⟨cp.code, userId, order.id⟩])
    | none => (db.coupons, db.couponUsages)
  ({ db with
    orders := db.orders ++ [order]
    orderItems := db.orderItems ++ newItems
    stocks := reserveAll db.stocks cart.items
    products := cart.items.foldl (fun ps it =>
      updateFirstProduct ps it.productId
        (fun p => { p with order_count := p.order_count + it.quantity }))
      db.products
    coupons := couponTables.1
    couponUsages := couponTables.2
    statusHistory := db.statusHistory ++ [⟨order.id, .pending, "Order created"⟩]
    carts := updateCart db.carts userId (fun _ => { items := [], coupon := none })
    nextOrderId := db.nextOrderId + 1 }, order)

/-- Embeds `CheckoutView.post` (views.py lines 37-175), as one atomic transaction.
An `Except.error` models an exception leaving the `transaction.atomic`
block: the database is rolled back, unchanged.  `now` stands for
`timezone.now()` read inside the cart's coupon check; the returned `Order`
is the row the view serializes back. -/
def checkout (db : DB) (userId shippingAddressId : Nat)
    (billingAddressId : Option Nat) (now : Int) : Except Err (DB × Order) :=
  match findCart db.carts userId with
  | none => .error .cartEmpty
  | some cart =>
    if cart.items.length = 0 then .error .cartEmpty
    else if ¬ hasAddress db.addresses shippingAddressId userId then
      .error .addressNotFound
    else if (match billingAddressId with
             | some bid => !hasAddress db.addresses bid userId
             | none => false : Bool) then
      .error .addressNotFound
    else .ok (checkoutResult db userId cart now)

/-- The transaction boundary around checkout: on error the transaction rolls
back and the database stays as it was. -/
def checkoutRun (db : DB) (userId shippingAddressId : Nat)
    (billingAddressId : Option Nat) (now : Int) : DB :=
  match checkout db userId shippingAddressId billingAddressId now with
  | .ok (db', _) => db'
  | .error _ => db

/-! ## Order cancellation and status updates — apps/orders/views.py -/

def itemsOfOrder (db : DB) (oid : Nat) : List OrderItem :=
  db.orderItems.filter (fun i => i.orderId = oid)

/-- The stock-release loop of `OrderViewSet.cancel` (views.py lines 213-225):
each line's quantity is subtracted from the first matching stock row's
`reserved_quantity`, floored at 0 (`max(0, ...)`). -/
def releaseAll (stocks : List Stock) (items : List OrderItem) : List Stock :=
  items.foldl (fun ss it =>
    updateFirstStock ss it.productId it.variationId
      (fun s => { s with reserved_quantity := max 0 (s.reserved_quantity - it.quantity) }))
    stocks

/-- The state written by a permitted cancellation (views.py lines 213-235):
reservations released per line, order set to `cancelled`, history appended. -/
def cancelResult (db : DB) (oid : Nat) : DB :=
  { db with
    stocks := releaseAll db.stocks (itemsOfOrder db oid)
    orders := updateFirstOrder db.orders oid (fun q => { q with status := .cancelled })
    statusHistory := db.statusHistory ++ [⟨oid, .cancelled, "Cancelled by customer"⟩] }

/-- Embeds `OrderViewSet.cancel` (views.py lines 199-243).  The `can_cancel` check
happens before any mutation; a failed check returns a 400 response with
nothing written. -/
def cancel (db : DB) (oid : Nat) : Except Err DB :=
  match findFirstOrder db.orders oid with
  | none => .error .orderNotFound
  | some o =>
    if ¬ o.can_cancel then .error .orderNotCancellable
    else .ok (cancelResult db oid)

/-- The transaction boundary around `cancel`: a rejected cancellation (or a
missing order) leaves the database unchanged — in the source the
`can_cancel` check even precedes the `transaction.atomic` block. -/
def cancelRun (db : DB) (oid : Nat) : DB :=
  match cancel db oid with
  | .ok db' => db'
  | .error _ => db

/-- The stock-commit loop of the admin `shipped` path (views.py lines
290-299): both `quantity` and `reserved_quantity` of the first matching
stock row drop by the line quantity, with no floor. -/
def commitAll (stocks : List Stock) (items : List OrderItem) : List Stock :=
  items.foldl (fun ss it =>
    updateFirstStock ss it.productId it.variationId
      (fun s => { s with
        quantity := s.quantity - it.quantity
        reserved_quantity := s.reserved_quantity - it.quantity }))
    stocks

/-- The state written by `update_status` (views.py lines 275-299). -/
def updateStatusResult (db : DB) (oid : Nat) (newStatus : OrderStatus)
    (notes : String) (trackingCode : Option Nat) : DB :=
  { db with
    orders := updateFirstOrder db.orders oid (fun o =>
      { o with
        status := newStatus
        tracking_code := (match trackingCode with
                          | some t => some t
                          | none => o.tracking_code) })
    stocks := if newStatus = .shipped then commitAll db.stocks (itemsOfOrder db oid)
              else db.stocks
    statusHistory := db.statusHistory ++ [⟨oid, newStatus, notes⟩] }

/-- Embeds `OrderAdminViewSet.update_status` (views.py lines 261-307): sets the
status unconditionally (no transition validation), optionally sets the
tracking code, appends history, and commits stock exactly when the new
status is `shipped`. -/
def update_status (db : DB) (oid : Nat) (newStatus : OrderStatus)
    (notes : String) (trackingCode : Option Nat) : Except Err DB :=
  match findFirstOrder db.orders oid with
  | none => .error .orderNotFound
  | some _ => .ok (updateStatusResult db oid newStatus notes trackingCode)

/-! ## Payment creation and refund — apps/payments/views.py -/

/-- Embeds `CreatePaymentView.post` (views.py lines 51-150), with the gateway
adapter's reply passed in as `result`.  The source first saves a Payment row
in `pending`, calls the adapter, then on success overwrites that row with
the adapter's external id and mapped status — the net effect modelled by
appending the finished row.  On adapter failure the source saves the row as
`rejected` and raises `PaymentFailedException`; the exception propagates out
of the `@transaction.atomic` wrapper around `post`, so the whole
transaction — including that save — is rolled back, which the error result
models (no state survives).  The ownership filter `user=request.user` is
the `userId` check. -/
def create_payment (db : DB) (oid userId : Nat) (result : GatewayResult) :
    Except Err (DB × Payment) :=
  match findFirstOrder db.orders oid with
  | none => .error .orderNotFound
  | some o =>
    if ¬ (o.userId = userId) then .error .orderNotFound
    else if ¬ (o.status = .pending ∨ o.status = .awaiting_payment) then
      .error .orderNotAwaitingPayment
    else if ¬ result.success then .error .paymentFailed
    else
      let payment : Payment := {
        id := db.nextPaymentId
        orderId := oid
        status := result.result_status
        amount := o.total
        gateway_payment_id := result.payment_id }
      .ok ({ db with
        payments := db.payments ++ [payment]
        orders := updateFirstOrder db.orders oid (fun q =>
          { q with status := if result.result_status = .approved then .paid
                             else .awaiting_payment })
        paymentTransactions := db.paymentTransactions ++
          [⟨payment.id, "authorization", result.result_status, o.total⟩]
        nextPaymentId := db.nextPaymentId + 1 }, payment)

/-- The transaction boundary around `create_payment`: on any raised
exception the transaction rolls back, leaving the database unchanged. -/
def createPaymentRun (db : DB) (oid userId : Nat) (result : GatewayResult) : DB :=
  match create_payment db oid userId result with
  | .ok (db', _) => db'
  | .error _ => db

/-- Embeds `RefundPaymentView.post` (views.py lines 186-232), with the gateway
adapter's refund outcome passed in as `gwSuccess`.  Only `approved`
payments may be refunded; on success both the payment and its order move to
`refunded`.  (The `user=request.user` ownership filter is a permission
detail not modelled on the Payment row.) -/
def refund_payment (db : DB) (pid : Nat) (gwSuccess : Bool) : Except Err DB :=
  match findPaymentById db.payments pid with
  | none => .error .paymentNotFound
  | some p =>
    if ¬ (p.status = .approved) then .error .onlyApprovedRefundable
    else if ¬ gwSuccess then .error .refundFailed
    else
      .ok { db with
        payments := updatePaymentById db.payments pid
          (fun q => { q with status := .refunded })
        orders := updateFirstOrder db.orders p.orderId
          (fun o => { o with status := .refunded }) }

/-! ## Webhooks — apps/payments/views.py -/

/-- Outcome of a gateway adapter's `process_webhook`: an error (bad
signature / malformed payload), a payload carrying an (external id, mapped
status) pair, or anything else (ignored by the views). -/
inductive WebhookPayload
  | err
  | info (externalId : Nat) (status : PayStatus)
  | other
deriving DecidableEq, Repr

/-- Embeds `MercadoPagoWebhookView.post` (views.py lines 245-277): looks the
payment up by external id, applies the incoming status only when it differs
from the current one, and when the new status is `approved` cascades the
order to `paid` and appends a history entry. -/
def mpWebhook (db : DB) (payload : WebhookPayload) : DB :=
  match payload with
  | .err => db
  | .other => db
  | .info xid st =>
    match findFirstPayment db.payments xid with
    | none => db
    | some p =>
      if p.status = st then db
      else
        let payments := updateFirstPayment db.payments xid
          (fun q => { q with status := st })
        if st = .approved then
          { db with
            payments := payments
            orders := updateFirstOrder db.orders p.orderId
              (fun o => { o with status := .paid })
            statusHistory := db.statusHistory ++
              [⟨p.orderId, .paid, "Payment confirmed via webhook"⟩] }
        else { db with payments := payments }

/-- Embeds `StripeWebhookView.post` (views.py lines 290-315): same shape as the
Mercado Pago handler, without the history entry. -/
def stripeWebhook (db : DB) (payload : WebhookPayload) : DB :=
  match payload with
  | .err => db
  | .other => db
  | .info xid st =>
    match findFirstPayment db.payments xid with
    | none => db
    | some p =>
      if p.status = st then db
      else
        let payments := updateFirstPayment db.payments xid
          (fun q => { q with status := st })
        if st = .approved then
          { db with
            payments := payments
            orders := updateFirstOrder db.orders p.orderId
              (fun o => { o with status := .paid }) }
        else { db with payments := payments }

/-! ## Adding to the cart — apps/cart/views.py, CartItemView.post -/

def findFirstLine : List CartItem → Nat → Option Nat → Option CartItem
  | [], _, _ => none
  | l :: ls, pid, vid =>
    if l.productId = pid ∧ l.variationId = vid then some l
    else findFirstLine ls pid vid

def updateFirstLine : List CartItem → Nat → Option Nat → (CartItem → CartItem) → List CartItem
  | [], _, _, _ => []
  | l :: ls, pid, vid, f =>
    if l.productId = pid ∧ l.variationId = vid then f l :: ls
    else l :: updateFirstLine ls pid vid f

def lineQty (items : List CartItem) (pid : Nat) (vid : Option Nat) : Nat :=
  match findFirstLine items pid vid with
  | some l => l.quantity
  | none => 0

/-- Embeds `CartItemView.post` (views.py lines 91-161), after product/variation
resolution.  `price` stands for the catalog lookup
`variation.final_price if variation else product.current_price`.  The stock
check compares only the **newly requested** `qty` against
`available_quantity` (`if stock and stock.available_quantity < quantity`);
the quantity already held in the same cart line is ignored, and a missing
stock row skips the check entirely.  `get_or_create` then either appends a
new line or increments the existing one (unit price not refreshed);
`addLine` is that get-or-create step. -/
def addLine (cart : Cart) (pid : Nat) (vid : Option Nat) (qty : Nat)
    (price : ℚ) : Cart :=
  match findFirstLine cart.items pid vid with
  | some _ =>
    { cart with
      items := updateFirstLine cart.items pid vid
        (fun l => { l with quantity := l.quantity + qty }) }
  | none => { cart with items := cart.items ++ [⟨pid, vid, qty, price⟩] }

def addItem (cart : Cart) (stocks : List Stock) (pid : Nat) (vid : Option Nat)
    (qty : Nat) (price : ℚ) : Except Err Cart :=
  match findFirstStock stocks pid vid with
  | some s =>
    if s.available_quantity < (qty : Int) then .error .insufficientStock
    else .ok (addLine cart pid vid qty price)
  | none => .ok (addLine cart pid vid qty price)

/-- Embeds `addItem` repeated `n` times with the same arguments (stock unchanged in
between: adding to the cart reserves nothing). -/
def addItemIter (cart : Cart) (stocks : List Stock) (pid : Nat)
    (vid : Option Nat) (qty : Nat) (price : ℚ) : Nat → Except Err Cart
  | 0 => .ok cart
  | n + 1 =>
    match addItem cart stocks pid vid qty price with
    | .ok cart' => addItemIter cart' stocks pid vid qty price n
    | .error e => .error e

/-- Modelled from the spec's words (§4.5), for comparison with the
handlers: the declared Payment.status transition graph
`pending → processing → approved|rejected`, `approved → refunded`, any
non-terminal state → `cancelled`. -/
def specPayEdge : PayStatus → PayStatus → Bool
  | .pending, .processing => true
  | .processing, .approved => true
  | .processing, .rejected => true
  | .approved, .refunded => true
  | .pending, .cancelled => true
  | .processing, .cancelled => true
  | .approved, .cancelled => true
  | _, _ => false

/-! ## Concrete fixtures used by counterexamples and witnesses -/

/-- A storable coupon violating C6: a percentage coupon with
`discount_value = 200` (the field's help text says 0-100 but nothing
enforces it) and no `max_discount`. -/
def c6cex : Coupon :=
  { code := "BIG200", discount_type := .percentage, discount_value := 200,
    max_discount := none, min_order_value := 0, usage_limit := none,
    usage_limit_per_user := 1, times_used := 0, is_active := true,
    valid_from := 0, valid_until := none, first_purchase_only := false }

/-- A well-formed 10% coupon for the C6 witness. -/
def c6wit : Coupon :=
  { code := "TEN", discount_type := .percentage, discount_value := 10,
    max_discount := none, min_order_value := 0, usage_limit := none,
    usage_limit_per_user := 1, times_used := 0, is_active := true,
    valid_from := 0, valid_until := none, first_purchase_only := false }

/-- A coupon violating C7's formula: `usage_limit = 0` with
`times_used = 5`, active and inside its validity window. -/
def c7cex : Coupon :=
  { code := "ZEROLIMIT", discount_type := .percentage, discount_value := 10,
    max_discount := none, min_order_value := 0, usage_limit := some 0,
    usage_limit_per_user := 1, times_used := 5, is_active := true,
    valid_from := 0, valid_until := some 10, first_purchase_only := false }

/-- The empty database, base for the concrete fixtures. -/
def emptyDB : DB :=
  { carts := [], addresses := [], stocks := [], orders := [], orderItems := [],
    statusHistory := [], coupons := [], couponUsages := [], payments := [],
    paymentTransactions := [], products := [], nextOrderId := 1,
    nextPaymentId := 1 }

/-- Fixture order for the C2 witness: pending, one line of quantity 2. -/
def c2order : Order :=
  { id := 1, userId := 1, status := .pending, subtotal := 20,
    shipping_cost := 0, discount := 0, total := 20, coupon_code := "",
    tracking_code := none }

/-- Fixture database for the C2 witness: the pending order `c2order` with
one line of quantity 2 against a stock row holding 10 with 5 reserved. -/
def c2db : DB :=
  { emptyDB with
    orders := [c2order]
    orderItems := [⟨1, 1, none, 2, 10, 20⟩]
    stocks := [⟨1, none, 10, 5⟩] }

/-- Fixture order for the C8 witness: the spec's scenario order, one line
of quantity 3. -/
def c8order : Order :=
  { id := 1, userId := 1, status := .paid, subtotal := 30,
    shipping_cost := 0, discount := 0, total := 30, coupon_code := "",
    tracking_code := none }

/-- Fixture database for the C8 witness: `c8order` with one line of
quantity 3 against a stock row of quantity 100 and 3 reserved. -/
def c8db : DB :=
  { emptyDB with
    orders := [c8order]
    orderItems := [⟨1, 1, none, 3, 10, 30⟩]
    stocks := [⟨1, none, 100, 3⟩] }

/-- Fixture database for the C5 witness: user 1 owns a cart with zero
items. -/
def c5db : DB := { emptyDB with carts := [(1, ⟨[], none⟩)] }

/-- Fixture cart violating C1: one line of 10 × 1 with the 200% coupon
`c6cex` applied, so the computed discount (20) exceeds the subtotal (10). -/
def c1cart : Cart := { items := [⟨1, none, 1, 10⟩], coupon := some c6cex }

/-- Fixture database for the C1 counterexample: user 1 owns `c1cart`; a
matching address and stock row let checkout succeed. -/
def c1db : DB :=
  { emptyDB with
    carts := [(1, c1cart)]
    addresses := [⟨10, 1⟩]
    stocks := [⟨1, none, 50, 0⟩]
    coupons := [c6cex]
    products := [⟨1, 0⟩] }

/-- The order the C1 counterexample checkout creates. -/
def c1order : Order := (checkoutResult c1db 1 c1cart 5).2

/-- Fixture cart for the C1 witness: one line of 10 × 1, no coupon. -/
def c1wcart : Cart := { items := [⟨1, none, 1, 10⟩], coupon := none }

/-- Fixture database for the C1 witness. -/
def c1wdb : DB :=
  { emptyDB with
    carts := [(1, c1wcart)]
    addresses := [⟨10, 1⟩]
    stocks := [⟨1, none, 50, 0⟩]
    products := [⟨1, 0⟩] }

/-- Fixture order for C4: pending, total 50, owned by user 1. -/
def c4order : Order :=
  { id := 1, userId := 1, status := .pending, subtotal := 50,
    shipping_cost := 0, discount := 0, total := 50, coupon_code := "",
    tracking_code := none }

/-- Fixture database for C4. -/
def c4db : DB := { emptyDB with orders := [c4order] }

/-- A failing gateway adapter reply (`success = false`). -/
def c4gwFail : GatewayResult :=
  { success := false, payment_id := none, result_status := .rejected }

/-- Fixture database for the C9 counterexample: the pending order `c4order`
ready for payment. -/
def c9db0 : DB := { emptyDB with orders := [c4order] }

/-- A successful gateway reply mapping to `approved`, external id 77. -/
def c9gwOk : GatewayResult :=
  { success := true, payment_id := some 77, result_status := .approved }

/-- State after the C9 payment is created and approved. -/
def c9db1 : DB := createPaymentRun c9db0 1 1 c9gwOk

/-- State after a later webhook delivers mapped status `pending` (the
Mercado Pago `_map_status` sends gateway status "pending" to "pending")
for the approved payment. -/
def c9db2 : DB := mpWebhook c9db1 (.info 77 .pending)

/-- Fixture payment for the C9 witness: approved, external id 77. -/
def c9wpay : Payment :=
  { id := 1, orderId := 1, status := .approved, amount := 50,
    gateway_payment_id := some 77 }

/-- Fixture database for the C9 witness. -/
def c9wdb : DB := { emptyDB with payments := [c9wpay] }

/-- State after the C9 witness refund. -/
def c9wdbAfter : DB :=
  match refund_payment c9wdb 1 true with
  | .ok d => d
  | .error _ => c9wdb

/-! ## Library lemmas on first-match lookups and updates -/

theorem findFirstOrder_updateFirstOrder (os : List Order) (oid : Nat)
    (f : Order → Order) (hf : ∀ o, (f o).id = o.id) :
    findFirstOrder (updateFirstOrder os oid f) oid = (findFirstOrder os oid).map f := by
  induction os with
  | nil => rfl
  | cons o os ih =>
    by_cases h : o.id = oid
    · simp [findFirstOrder, updateFirstOrder, h, hf]
    · simp [findFirstOrder, updateFirstOrder, h, ih]

theorem findFirstPayment_updateFirstPayment (ps : List Payment) (xid : Nat)
    (f : Payment → Payment) (hf : ∀ p, (f p).gateway_payment_id = p.gateway_payment_id) :
    findFirstPayment (updateFirstPayment ps xid f) xid = (findFirstPayment ps xid).map f := by
  induction ps with
  | nil => rfl
  | cons p ps ih =>
    by_cases h : p.gateway_payment_id = some xid
    · simp [findFirstPayment, updateFirstPayment, h, hf]
    · simp [findFirstPayment, updateFirstPayment, h, ih]

theorem findPaymentById_updatePaymentById (ps : List Payment) (pid : Nat)
    (f : Payment → Payment) (hf : ∀ p, (f p).id = p.id) :
    findPaymentById (updatePaymentById ps pid f) pid = (findPaymentById ps pid).map f := by
  induction ps with
  | nil => rfl
  | cons p ps ih =>
    by_cases h : p.id = pid
    · simp [findPaymentById, updatePaymentById, h, hf]
    · simp [findPaymentById, updatePaymentById, h, ih]

theorem findFirstLine_updateFirstLine (ls : List CartItem) (pid : Nat) (vid : Option Nat)
    (f : CartItem → CartItem)
    (hf : ∀ l, (f l).productId = l.productId ∧ (f l).variationId = l.variationId) :
    findFirstLine (updateFirstLine ls pid vid f) pid vid = (findFirstLine ls pid vid).map f := by
  induction ls with
  | nil => rfl
  | cons l ls ih =>
    by_cases h : l.productId = pid ∧ l.variationId = vid
    · simp [findFirstLine, updateFirstLine, h, (hf l).1, (hf l).2]
    · simp [findFirstLine, updateFirstLine, h, ih]

theorem findFirstLine_append_of_none (ls ms : List CartItem) (pid : Nat) (vid : Option Nat)
    (h : findFirstLine ls pid vid = none) :
    findFirstLine (ls ++ ms) pid vid = findFirstLine ms pid vid := by
  induction ls with
  | nil => rfl
  | cons l ls ih =>
    by_cases hl : l.productId = pid ∧ l.variationId = vid
    · simp [findFirstLine, hl] at h
    · simp [findFirstLine, hl] at h ⊢
      exact ih h

theorem map_quantity_updateFirstStock (ss : List Stock) (pid : Nat) (vid : Option Nat)
    (f : Stock → Stock) (hf : ∀ s, (f s).quantity = s.quantity) :
    (updateFirstStock ss pid vid f).map Stock.quantity = ss.map Stock.quantity := by
  induction ss with
  | nil => rfl
  | cons s ss ih =>
    by_cases h : s.productId = pid ∧ s.variationId = vid
    · simp [updateFirstStock, h, hf]
    · simp [updateFirstStock, h, ih]

/-- Releasing reservations never touches the on-hand `quantity` column. -/
theorem map_quantity_releaseAll (items : List OrderItem) (ss : List Stock) :
    (releaseAll ss items).map Stock.quantity = ss.map Stock.quantity := by
  induction items generalizing ss with
  | nil => rfl
  | cons it items ih =>
    rw [releaseAll, List.foldl_cons, ← releaseAll, ih,
      map_quantity_updateFirstStock]
    intro s
    rfl

/-- Reserving stock at checkout never touches the on-hand `quantity` column. -/
theorem map_quantity_reserveAll (items : List CartItem) (ss : List Stock) :
    (reserveAll ss items).map Stock.quantity = ss.map Stock.quantity := by
  induction items generalizing ss with
  | nil => rfl
  | cons it items ih =>
    rw [reserveAll, List.foldl_cons, ← reserveAll, ih,
      map_quantity_updateFirstStock]
    intro s
    rfl

/-! ## Claim C6 — calculateDiscount bounds -/

/-- C6 counterexample: `calculate_discount` on a stored percentage coupon
with `discount_value = 200` returns 20 on an order value of 10 — exceeding
the order value, against the claim that the result never exceeds it for
every discountValue the coupon may store. -/
theorem calculate_discount_exceeds_order_value :
    Coupon.calculate_discount c6cex 10 = 20 ∧
    ¬ Coupon.calculate_discount c6cex 10 ≤ 10 := by
  norm_num [c6cex, Coupon.calculate_discount]

/-- C6 (amended): for every non-negative order value, `calculate_discount`
stays within [0, orderValue] provided the stored `discount_value` is inside
its documented range — 0-100 for percentage coupons (with a non-negative
`max_discount` when set), non-negative for fixed coupons.  Outside those
ranges (e.g. `discount_value = 200`) the result can exceed the order value
or be negative. -/
theorem calculate_discount_bounds (c : Coupon) (ov : ℚ) (hov : 0 ≤ ov)
    (hc : (c.discount_type = .percentage ∧ 0 ≤ c.discount_value ∧
            c.discount_value ≤ 100 ∧ ∀ m, c.max_discount = some m → 0 ≤ m) ∨
          (c.discount_type = .fixed ∧ 0 ≤ c.discount_value)) :
    0 ≤ c.calculate_discount ov ∧ c.calculate_discount ov ≤ ov := by
  rcases hc with ⟨ht, h0, h100, hm⟩ | ⟨ht, h0⟩
  · have hd0 : 0 ≤ ov * (c.discount_value / 100) := by positivity
    have hdov : ov * (c.discount_value / 100) ≤ ov := by
      calc ov * (c.discount_value / 100) ≤ ov * 1 := by
            apply mul_le_mul_of_nonneg_left _ hov
            linarith
        _ = ov := mul_one ov
    unfold Coupon.calculate_discount
    rw [ht]
    cases hmd : c.max_discount with
    | none => exact ⟨hd0, hdov⟩
    | some m =>
      by_cases hz : m = 0
      · simpa [hz] using ⟨hd0, hdov⟩
      · simp only [hz, if_false]
        exact ⟨le_min hd0 (hm m hmd), le_trans (min_le_left _ _) hdov⟩
  · unfold Coupon.calculate_discount
    rw [ht]
    exact ⟨le_min h0 hov, min_le_right _ _⟩

theorem calculate_discount_bounds_witness :
    0 ≤ Coupon.calculate_discount c6wit 200 ∧
    Coupon.calculate_discount c6wit 200 ≤ 200 :=
  calculate_discount_bounds c6wit 200 (by decide)
    (Or.inl ⟨rfl, by decide, by decide, by intro m h; cases h⟩)

/-! ## Claim C7 — isValid and usageLimit = 0 -/

/-- C7 counterexample: with `usage_limit = 0` the source's
`if self.usage_limit and ...` guard is skipped (0 is falsy in Python), so
`is_valid` returns `true`, while the claim's formula — usageLimit non-null
and `timesUsed < 0` false — says the coupon is invalid. -/
theorem is_valid_zero_limit_diverges :
    Coupon.is_valid c7cex 5 = true ∧ specCouponValid c7cex 5 = false := by
  decide

/-- C7 (amended): `is_valid` returns true exactly when the coupon is active,
`now` lies within [validFrom, validUntil], and the usage limit is null,
**zero** (treated as unlimited, not as invalid), or strictly above
`times_used`. -/
theorem is_valid_iff (c : Coupon) (now : Int) :
    c.is_valid now = true ↔
      (c.is_active = true ∧ c.valid_from ≤ now ∧
       (∀ vu, c.valid_until = some vu → now ≤ vu) ∧
       (c.usage_limit = none ∨ c.usage_limit = some 0 ∨
        ∃ l, c.usage_limit = some l ∧ c.times_used < l)) := by
  rcases c with ⟨code, dt, dv, md, mov, ul, ulpu, tu, ia, vf, vu, fpo⟩
  unfold Coupon.is_valid
  cases ia <;> cases vu <;> cases ul <;> simp_all

/-! ## Claim C10 — the insufficient-stock check ignores the cart line -/

theorem lineQty_addLine (cart : Cart) (pid : Nat) (vid : Option Nat)
    (qty : Nat) (price : ℚ) :
    lineQty (addLine cart pid vid qty price).items pid vid
      = lineQty cart.items pid vid + qty := by
  unfold addLine lineQty
  cases hline : findFirstLine cart.items pid vid with
  | some l =>
    dsimp only
    rw [findFirstLine_updateFirstLine cart.items pid vid
      (fun l => { l with quantity := l.quantity + qty }) (fun l => ⟨rfl, rfl⟩), hline]
    rfl
  | none =>
    dsimp only
    rw [findFirstLine_append_of_none cart.items _ pid vid hline]
    simp [findFirstLine]

theorem addItem_succeeds_aux (cart : Cart) (stocks : List Stock) (pid : Nat)
    (vid : Option Nat) (qty : Nat) (price : ℚ) (s : Stock)
    (hs : findFirstStock stocks pid vid = some s)
    (hq : (qty : Int) ≤ s.available_quantity) :
    addItem cart stocks pid vid qty price = .ok (addLine cart pid vid qty price) := by
  unfold addItem
  rw [hs]
  dsimp only
  rw [if_neg (not_lt.mpr hq)]

/-- C10: the stock check in `CartItemView.post` compares only the newly
requested quantity `qty` against `available_quantity`, ignoring what the
cart line already holds; so with `qty ≤ availableQuantity`, `n` repeated
adds all succeed and the line grows to `n * qty` — which can exceed
`availableQuantity` — with `InsufficientStock` never raised. -/
theorem addItem_check_ignores_line_quantity (cart : Cart) (stocks : List Stock)
    (pid : Nat) (vid : Option Nat) (qty : Nat) (price : ℚ) (n : Nat) (s : Stock)
    (hs : findFirstStock stocks pid vid = some s)
    (hq : (qty : Int) ≤ s.available_quantity) :
    ∃ cart', addItemIter cart stocks pid vid qty price n = .ok cart' ∧
      lineQty cart'.items pid vid = lineQty cart.items pid vid + n * qty := by
  induction n generalizing cart with
  | zero => exact ⟨cart, rfl, by simp⟩
  | succ n ih =>
    obtain ⟨c', h', hq'⟩ := ih (addLine cart pid vid qty price)
    refine ⟨c', ?_, ?_⟩
    · simp [addItemIter, addItem_succeeds_aux cart stocks pid vid qty price s hs hq, h']
    · rw [hq', lineQty_addLine]
      ring

/-- Concrete instance: stock with `available_quantity = 5`; adding 5 three
times succeeds and leaves the single cart line at 15 > 5. -/
theorem addItem_check_ignores_line_quantity_witness :
    ∃ cart', addItemIter ⟨[], none⟩ [⟨1, none, 5, 0⟩] 1 none 5 10 3 = .ok cart' ∧
      lineQty cart'.items 1 none = lineQty ([] : List CartItem) 1 none + 3 * 5 :=
  addItem_check_ignores_line_quantity ⟨[], none⟩ [⟨1, none, 5, 0⟩] 1 none 5 10 3
    ⟨1, none, 5, 0⟩ rfl (by decide)

/-! ## Claim C2 — cancel releases stock once and rejects a second cancel -/

theorem cancel_rejected_aux (db : DB) (oid : Nat) (o : Order)
    (hfind : findFirstOrder db.orders oid = some o) (hnc : o.can_cancel = false) :
    cancel db oid = .error .orderNotCancellable ∧ cancelRun db oid = db := by
  have hc : cancel db oid = .error .orderNotCancellable := by
    unfold cancel
    rw [hfind]
    dsimp only
    rw [if_pos (by simp [hnc])]
  exact ⟨hc, by unfold cancelRun; rw [hc]⟩

/-- C2: on an order in a cancellable status, `cancel` succeeds, its stocks
are exactly the per-line floored release of the old stocks, the order ends
`cancelled`; a second `cancel` is rejected with `orderNotCancellable`
(`can_cancel` is now false) and leaves the database — stock rows
included — untouched, so reserved stock is never released twice. -/
theorem cancel_releases_once (db : DB) (oid : Nat) (o : Order)
    (hfind : findFirstOrder db.orders oid = some o) (hc : o.can_cancel = true) :
    ∃ db', cancel db oid = .ok db' ∧
      db'.stocks = releaseAll db.stocks (itemsOfOrder db oid) ∧
      findFirstOrder db'.orders oid = some { o with status := .cancelled } ∧
      cancel db' oid = .error .orderNotCancellable ∧
      cancelRun db' oid = db' := by
  use cancelResult db oid
  have h2 : findFirstOrder (cancelResult db oid).orders oid
      = some { o with status := OrderStatus.cancelled } := by
    unfold cancelResult
    dsimp only
    rw [findFirstOrder_updateFirstOrder db.orders oid
      (fun q => { q with status := OrderStatus.cancelled }) (fun q => rfl), hfind]
    rfl
  obtain ⟨hrej, hrun⟩ := cancel_rejected_aux (cancelResult db oid) oid
    { o with status := OrderStatus.cancelled } h2 rfl
  refine ⟨?_, rfl, h2, hrej, hrun⟩
  unfold cancel
  rw [hfind]
  dsimp only
  rw [if_neg (by simp [hc])]

theorem cancel_releases_once_witness :
    ∃ db', cancel c2db 1 = .ok db' ∧
      db'.stocks = releaseAll c2db.stocks (itemsOfOrder c2db 1) ∧
      findFirstOrder db'.orders 1 = some { c2order with status := .cancelled } ∧
      cancel db' 1 = .error .orderNotCancellable ∧
      cancelRun db' 1 = db' :=
  cancel_releases_once c2db 1 c2order rfl rfl

/-! ## Claim C8 — only the shipped path depletes on-hand stock -/

theorem cancel_preserves_on_hand (db db' : DB) (oid : Nat)
    (h : cancel db oid = .ok db') :
    db'.stocks.map Stock.quantity = db.stocks.map Stock.quantity := by
  unfold cancel at h
  cases hfind : findFirstOrder db.orders oid with
  | none => rw [hfind] at h; cases h
  | some o =>
    rw [hfind] at h
    dsimp only at h
    by_cases hc : o.can_cancel = true
    · rw [if_neg (not_not_intro hc)] at h
      injection h with h
      subst h
      unfold cancelResult
      exact map_quantity_releaseAll _ _
    · rw [if_pos hc] at h
      cases h

theorem checkout_preserves_on_hand (db : DB) (uid said : Nat) (bid : Option Nat)
    (now : Int) (db' : DB) (o : Order)
    (h : checkout db uid said bid now = .ok (db', o)) :
    db'.stocks.map Stock.quantity = db.stocks.map Stock.quantity := by
  unfold checkout at h
  cases hc : findCart db.carts uid with
  | none => rw [hc] at h; cases h
  | some cart =>
    rw [hc] at h
    dsimp only at h
    split at h
    · cases h
    · split at h
      · cases h
      · split at h
        · cases h
        · injection h with h
          have hdb : db' = (checkoutResult db uid cart now).1 := by rw [h]
          subst hdb
          simp only [checkoutResult]
          exact map_quantity_reserveAll _ _

/-- C8: `update_status` to `shipped` succeeds on a found order and its
stocks are exactly the per-line commit (both `quantity` and
`reserved_quantity` down by the line quantity, as the concrete scenario
100/3 − 3 ⇒ 97/0 shows); any other status leaves stocks untouched, and
neither `cancel` nor `checkout` ever changes any stock row's on-hand
`quantity` — stock is permanently depleted only by the shipped path. -/
theorem update_status_shipped_commits (db : DB) (oid : Nat) (o : Order)
    (hfind : findFirstOrder db.orders oid = some o)
    (st : OrderStatus) (hst : st ≠ .shipped) (notes notes2 : String)
    (tc : Option Nat) :
    (update_status db oid .shipped notes tc
        = .ok (updateStatusResult db oid .shipped notes tc) ∧
      (updateStatusResult db oid .shipped notes tc).stocks
        = commitAll db.stocks (itemsOfOrder db oid)) ∧
    (update_status db oid st notes2 tc
        = .ok (updateStatusResult db oid st notes2 tc) ∧
      (updateStatusResult db oid st notes2 tc).stocks = db.stocks) ∧
    (∀ dbx dbx' oidx, cancel dbx oidx = .ok dbx' →
      dbx'.stocks.map Stock.quantity = dbx.stocks.map Stock.quantity) ∧
    (∀ dbc uid said bid now dbc' oc, checkout dbc uid said bid now = .ok (dbc', oc) →
      dbc'.stocks.map Stock.quantity = dbc.stocks.map Stock.quantity) ∧
    commitAll [⟨1, none, 100, 3⟩] [⟨1, 1, none, 3, 10, 30⟩] = [⟨1, none, 97, 0⟩] := by
  refine ⟨⟨?_, rfl⟩, ⟨?_, ?_⟩, ?_, ?_, by decide⟩
  · unfold update_status
    rw [hfind]
  · unfold update_status
    rw [hfind]
  · unfold updateStatusResult
    dsimp only
    rw [if_neg hst]
  · exact fun dbx dbx' oidx h => cancel_preserves_on_hand dbx dbx' oidx h
  · exact fun dbc uid said bid now dbc' oc h =>
      checkout_preserves_on_hand dbc uid said bid now dbc' oc h

/-- The spec's scenario: shipping `c8order` (one line, qty 3) against stock
(100 on hand, 3 reserved) leaves the stock row at (97, 0). -/
theorem update_status_shipped_commits_witness :
    (update_status c8db 1 .shipped "Shipped" none
        = .ok (updateStatusResult c8db 1 .shipped "Shipped" none) ∧
      (updateStatusResult c8db 1 .shipped "Shipped" none).stocks
        = commitAll c8db.stocks (itemsOfOrder c8db 1)) ∧
    (updateStatusResult c8db 1 .shipped "Shipped" none).stocks = [⟨1, none, 97, 0⟩] :=
  ⟨(update_status_shipped_commits c8db 1 c8order rfl .delivered (by decide)
      "Shipped" "n" none).1,
   by decide⟩

/-! ## Claim C5 — checkout on an empty cart mutates nothing -/

/-- C5: when the user's cart does not exist or holds zero items, checkout
fails with `cartEmpty` and the transaction leaves the database exactly as
it was — no order, no order item, no stock, coupon or any other change. -/
theorem checkout_empty_cart_no_mutation (db : DB) (uid said : Nat)
    (bid : Option Nat) (now : Int)
    (h : findCart db.carts uid = none ∨
         ∃ c, findCart db.carts uid = some c ∧ c.items = []) :
    checkout db uid said bid now = .error .cartEmpty ∧
    checkoutRun db uid said bid now = db := by
  have he : checkout db uid said bid now = .error .cartEmpty := by
    rcases h with h | ⟨c, hc, hitems⟩
    · unfold checkout
      rw [h]
    · unfold checkout
      rw [hc]
      dsimp only
      rw [hitems]
      rfl
  exact ⟨he, by unfold checkoutRun; rw [he]⟩

theorem checkout_empty_cart_no_mutation_witness :
    checkout c5db 1 10 none 0 = .error .cartEmpty ∧
    checkoutRun c5db 1 10 none 0 = c5db :=
  checkout_empty_cart_no_mutation c5db 1 10 none 0 (Or.inr ⟨⟨[], none⟩, rfl, rfl⟩)

/-! ## Claim C1 — order total identity at creation -/

/-- C1 counterexample: checking out `c1cart` (subtotal 10, 200% coupon, so
discount 20 > subtotal) succeeds and creates an order with `total = 0`
(the cart's `max(0, subtotal - discount)`) while
`subtotal - discount + shipping_cost = -10`: the claimed identity fails for
carts whose coupon discount exceeds the subtotal. -/
theorem checkout_total_identity_cex :
    checkout c1db 1 10 none 5 = .ok ((checkoutResult c1db 1 c1cart 5).1, c1order) ∧
    c1order.total = 0 ∧ c1order.subtotal = 10 ∧ c1order.discount = 20 ∧
    c1order.shipping_cost = 0 ∧
    c1order.total ≠ c1order.subtotal - c1order.discount + c1order.shipping_cost := by
  refine ⟨rfl, ?_, ?_, ?_, ?_, ?_⟩ <;>
    norm_num [c1order, checkoutResult, checkoutOrder, c1cart, c6cex,
      Cart.total, Cart.discount, Cart.subtotal, CartItem.total_price,
      Coupon.is_valid]

/-- C1 (amended): every order produced by checkout satisfies
`total = subtotal - discount + shipping_cost` at creation **provided** the
cart's discount does not exceed its subtotal; when the coupon discount
exceeds the subtotal the stored total is clamped to 0 and the identity
fails. -/
theorem checkout_total_identity (db : DB) (uid said : Nat) (bid : Option Nat)
    (now : Int) (db' : DB) (o : Order)
    (h : checkout db uid said bid now = .ok (db', o))
    (hd : o.discount ≤ o.subtotal) :
    o.total = o.subtotal - o.discount + o.shipping_cost := by
  unfold checkout at h
  cases hc : findCart db.carts uid with
  | none => rw [hc] at h; cases h
  | some cart =>
    rw [hc] at h
    dsimp only at h
    split at h
    · cases h
    · split at h
      · cases h
      · split at h
        · cases h
        · injection h with h
          have ho : o = (checkoutResult db uid cart now).2 := by rw [h]
          subst ho
          simp only [checkoutResult, checkoutOrder] at hd ⊢
          unfold Cart.total
          rw [max_eq_right (by linarith)]
          ring

theorem checkout_total_identity_witness :
    (checkoutResult c1wdb 1 c1wcart 0).2.total
      = (checkoutResult c1wdb 1 c1wcart 0).2.subtotal
        - (checkoutResult c1wdb 1 c1wcart 0).2.discount
        + (checkoutResult c1wdb 1 c1wcart 0).2.shipping_cost :=
  checkout_total_identity c1wdb 1 10 none 0 (checkoutResult c1wdb 1 c1wcart 0).1
    (checkoutResult c1wdb 1 c1wcart 0).2 rfl
    (by simp [checkoutResult, checkoutOrder, Cart.discount, c1wcart,
          Cart.subtotal, CartItem.total_price])

/-! ## Claim C3 — webhook idempotence -/

theorem mpWebhook_noop (db : DB) (xid : Nat) (st : PayStatus) (q : Payment)
    (hf : findFirstPayment db.payments xid = some q) (hst : q.status = st) :
    mpWebhook db (.info xid st) = db := by
  unfold mpWebhook
  dsimp only
  rw [hf]
  dsimp only
  rw [if_pos hst]

theorem stripeWebhook_noop (db : DB) (xid : Nat) (st : PayStatus) (q : Payment)
    (hf : findFirstPayment db.payments xid = some q) (hst : q.status = st) :
    stripeWebhook db (.info xid st) = db := by
  unfold stripeWebhook
  dsimp only
  rw [hf]
  dsimp only
  rw [if_pos hst]

theorem mpWebhook_payments (db : DB) (xid : Nat) (st : PayStatus) (q : Payment)
    (hf : findFirstPayment db.payments xid = some q) (hst : ¬ q.status = st) :
    (mpWebhook db (.info xid st)).payments
      = updateFirstPayment db.payments xid (fun r => { r with status := st }) := by
  unfold mpWebhook
  dsimp only
  rw [hf]
  dsimp only
  rw [if_neg hst]
  split <;> rfl

theorem stripeWebhook_payments (db : DB) (xid : Nat) (st : PayStatus) (q : Payment)
    (hf : findFirstPayment db.payments xid = some q) (hst : ¬ q.status = st) :
    (stripeWebhook db (.info xid st)).payments
      = updateFirstPayment db.payments xid (fun r => { r with status := st }) := by
  unfold stripeWebhook
  dsimp only
  rw [hf]
  dsimp only
  rw [if_neg hst]
  split <;> rfl

theorem mpWebhook_idem_aux (db : DB) (p : WebhookPayload) :
    mpWebhook (mpWebhook db p) p = mpWebhook db p := by
  cases p with
  | err => rfl
  | other => rfl
  | info xid st =>
    cases hf : findFirstPayment db.payments xid with
    | none =>
      have h1 : mpWebhook db (.info xid st) = db := by
        unfold mpWebhook
        dsimp only
        rw [hf]
      rw [h1, h1]
    | some q =>
      by_cases hst : q.status = st
      · have h1 := mpWebhook_noop db xid st q hf hst
        rw [h1, h1]
      · have hf2 : findFirstPayment (mpWebhook db (.info xid st)).payments xid
            = some { q with status := st } := by
          rw [mpWebhook_payments db xid st q hf hst,
            findFirstPayment_updateFirstPayment db.payments xid
              (fun r => { r with status := st }) (fun r => rfl), hf]
          rfl
        exact mpWebhook_noop _ xid st _ hf2 rfl

theorem stripeWebhook_idem_aux (db : DB) (p : WebhookPayload) :
    stripeWebhook (stripeWebhook db p) p = stripeWebhook db p := by
  cases p with
  | err => rfl
  | other => rfl
  | info xid st =>
    cases hf : findFirstPayment db.payments xid with
    | none =>
      have h1 : stripeWebhook db (.info xid st) = db := by
        unfold stripeWebhook
        dsimp only
        rw [hf]
      rw [h1, h1]
    | some q =>
      by_cases hst : q.status = st
      · have h1 := stripeWebhook_noop db xid st q hf hst
        rw [h1, h1]
      · have hf2 : findFirstPayment (stripeWebhook db (.info xid st)).payments xid
            = some { q with status := st } := by
          rw [stripeWebhook_payments db xid st q hf hst,
            findFirstPayment_updateFirstPayment db.payments xid
              (fun r => { r with status := st }) (fun r => rfl), hf]
          rfl
        exact stripeWebhook_noop _ xid st _ hf2 rfl

/-- C3: applying the same webhook payload twice — for either gateway
handler — yields exactly the same database (payments, orders and status
history included) as applying it once: the handlers mutate state only when
the incoming status differs from the payment's current status. -/
theorem webhook_idempotent (db : DB) (p : WebhookPayload) :
    mpWebhook (mpWebhook db p) p = mpWebhook db p ∧
    stripeWebhook (stripeWebhook db p) p = stripeWebhook db p :=
  ⟨mpWebhook_idem_aux db p, stripeWebhook_idem_aux db p⟩

/-! ## Claim C4 — failed payment creation (code bug: rejected row rolled back) -/

/-- C4, evaluated at the failing input: when the gateway adapter replies
`success = false`, the operation does fail with `paymentFailed` and the
order is untouched — but the Payment row the source saves with status
`rejected` is **not** persisted: the `PaymentFailedException` raised right
after the save propagates out of the `@transaction.atomic` wrapper around
`post`, rolling the whole transaction (that save included) back, so the
payments table stays empty, against the claim (and the code's own intent)
that the failed attempt is recorded for audit. -/
theorem create_payment_failure_rolls_back :
    create_payment c4db 1 1 c4gwFail = .error .paymentFailed ∧
    createPaymentRun c4db 1 1 c4gwFail = c4db ∧
    (createPaymentRun c4db 1 1 c4gwFail).payments = [] :=
  ⟨rfl, rfl, rfl⟩

/-! ## Claim C9 — the payment status graph is not enforced on webhooks -/

/-- C9 counterexample: from a pending order, `create_payment` succeeds with
an approved payment (external id 77); a subsequent webhook delivery
carrying mapped status `pending` — producible, since Mercado Pago's
`_map_status` maps gateway "pending" to "pending" — moves the payment from
`approved` back to `pending`, an edge outside the declared graph. -/
theorem payment_status_graph_cex :
    create_payment c9db0 1 1 c9gwOk = .ok (c9db1, ⟨1, 1, .approved, 50, some 77⟩) ∧
    (findFirstPayment c9db1.payments 77).map Payment.status = some .approved ∧
    (findFirstPayment c9db2.payments 77).map Payment.status = some .pending ∧
    specPayEdge .approved .pending = false :=
  ⟨rfl, rfl, rfl, rfl⟩

/-- C9 (amended): `refund` respects the declared graph — it succeeds only
on an `approved` payment and moves it to `refunded` — but the webhook
handler performs no transition validation: it either leaves the payments
table unchanged or sets the looked-up payment to whatever differing mapped
status the gateway delivered, so edges outside the graph (such as
approved → pending) are reachable through webhook deliveries. -/
theorem payment_status_graph_amended :
    (∀ db pid g db', refund_payment db pid g = .ok db' →
      (findPaymentById db.payments pid).map Payment.status = some .approved ∧
      (findPaymentById db'.payments pid).map Payment.status = some .refunded) ∧
    (∀ db xid st, (mpWebhook db (.info xid st)).payments = db.payments ∨
      (findFirstPayment (mpWebhook db (.info xid st)).payments xid).map
        Payment.status = some st) := by
  constructor
  · intro db pid g db' h
    unfold refund_payment at h
    cases hf : findPaymentById db.payments pid with
    | none => rw [hf] at h; cases h
    | some p =>
      rw [hf] at h
      dsimp only at h
      split at h
      · cases h
      · split at h
        · cases h
        · rename_i hap hg
          rw [not_not] at hap
          injection h with h
          subst h
          refine ⟨?_, ?_⟩
          · show some p.status = some PayStatus.approved
            rw [hap]
          · dsimp only
            rw [findPaymentById_updatePaymentById db.payments pid
              (fun r => { r with status := .refunded }) (fun r => rfl), hf]
            rfl
  · intro db xid st
    cases hf : findFirstPayment db.payments xid with
    | none =>
      left
      unfold mpWebhook
      dsimp only
      rw [hf]
    | some q =>
      by_cases hst : q.status = st
      · left
        rw [mpWebhook_noop db xid st q hf hst]
      · right
        rw [mpWebhook_payments db xid st q hf hst,
          findFirstPayment_updateFirstPayment db.payments xid
            (fun r => { r with status := st }) (fun r => rfl), hf]
        rfl

/-- The refund half of the amended C9 at a concrete input: an approved
payment refunds to `refunded`. -/
theorem payment_status_graph_amended_witness :
    (findPaymentById c9wdb.payments 1).map Payment.status = some .approved ∧
    (findPaymentById c9wdbAfter.payments 1).map Payment.status = some .refunded :=
  payment_status_graph_amended.1 c9wdb 1 true c9wdbAfter rfl

end ECommerce
